import Mathlib

/-!
Verification development for the `apriori` repository: a multitenant HR web
application with a webhook ingestion endpoint, an AI scoring adapter, and a
React frontend whose authentication context lives in
`frontend/src/contexts/AuthContext.js`.

The frontend authentication context is embedded directly from the JavaScript
source.  The webhook ingestion endpoint and the AI scoring adapter are
described in the specification (the backend files `main.py` / `ai_analyzer.py`
are not part of the provided sources), so those components are modelled from
the specification's words and the claims are settled against that model.
-/

namespace Apriori

/-! ## Frontend authentication context (`AuthContext.js`) -/

/-- User record as stored in the auth context; only the fields the verified
functions read are kept (`role` for `hasRole`). -/
structure UserData where
  role : String
  full_name : String
deriving DecidableEq, Repr

/-- The three cookies managed by `AuthContext.js` (`apriori_token`,
`apriori_user`, `apriori_org`); `none` means the cookie is absent. -/
structure CookieJar where
  apriori_token : Option String
  apriori_user : Option String
  apriori_org : Option String
deriving DecidableEq, Repr

/-- State held by the `AuthProvider` component, together with the pieces of
ambient state the context mutates (cookies and the axios default
`Authorization` header). -/
structure AuthState where
  user : Option UserData
  organization : Option String
  token : Option String
  cookies : CookieJar
  axiosAuthHeader : Option String
deriving DecidableEq, Repr

/-- JavaScript truthiness of a nullable string (`!!x`): `null` and the empty
string are falsy, every other string is truthy. -/
def jsTruthyStr : Option String → Bool
  | none => false
  | some s => s ≠ ""

/-- `logout` from `AuthContext.js`: clears `user`, `organization` and `token`,
removes the three cookies, and deletes the axios `Authorization` default
header. -/
def logout (_s : AuthState) : AuthState :=
  { user := none
    organization := none
    token := none
    cookies := { apriori_token := none, apriori_user := none, apriori_org := none }
    axiosAuthHeader := none }

/-- `isAuthenticated` from `AuthContext.js`: `!!token && !!user` (a user
object, when present, is always truthy in JavaScript). -/
def isAuthenticated (s : AuthState) : Bool :=
  jsTruthyStr s.token && s.user.isSome

/-- Argument shape accepted by `hasRole`: either a single role value or an
array of role values (the JavaScript code branches on `Array.isArray`). -/
inductive RolesArg where
  | one (r : String)
  | many (rs : List String)
deriving DecidableEq, Repr

/-- `hasRole` from `AuthContext.js`: `false` when `user` is null; membership
test when the argument is an array; strict equality otherwise. -/
def hasRole (user : Option UserData) (roles : RolesArg) : Bool :=
  match user with
  | none => false
  | some u =>
    match roles with
    | .many rs => rs.contains u.role
    | .one r => u.role == r

/-- A concrete fully-populated authentication state used to instantiate the
universally quantified theorems below. -/
def sampleAuthState : AuthState :=
  { user := some { role := "admin", full_name := "Ada" }
    organization := some "ips-seguridad"
    token := some "tok123"
    cookies := { apriori_token := some "tok123"
                 apriori_user := some "u"
                 apriori_org := some "o" }
    axiosAuthHeader := some "Bearer tok123" }

/-- A concrete user record used to instantiate `hasRole_spec`. -/
def sampleUser : UserData := { role := "hr", full_name := "Eva" }

/-! ## Webhook ingestion endpoint and AI scoring adapter

The backend implementation (`backend/app/main.py`, `backend/app/ai_analyzer.py`)
is referenced by the repository's README and deployment scripts but is not part
of the provided sources, so the components below are modelled from the
specification (§3, §4, §6, §7). -/

/-- Modelled from the spec: the configuration surface consumed by the core
(§6) — shared webhook secret, the policy flag saying whether signature
verification is mandatory or optional (§4.1), and the transcript truncation
limit (§4.2). -/
structure WebhookConfig where
  secret : String
  signatureMandatory : Bool
  truncLimit : Nat

/-- Modelled from the spec: an inbound webhook request — a raw JSON body and
an optional signature header (§4.1). -/
structure WebhookRequest where
  rawBody : String
  signatureHeader : Option String

/-- Modelled from the spec: the expected body shape `{ call_id, transcript,
contact }` (§6). -/
structure WebhookPayload where
  call_id : String
  transcript : String
  contact : String
deriving DecidableEq

/-- Modelled from the spec: the outcome of deserialising a raw body — the body
may be malformed JSON, valid JSON missing a required field, or well formed
(§4.1 error conditions). -/
inductive BodyParseResult where
  | malformed
  | missingField
  | ok (p : WebhookPayload)
deriving DecidableEq

/-- Modelled from the spec: the possible HTTP responses of the webhook
endpoint — `200 {ack_id}`, `401`, `400`, `422` (§6). -/
inductive WebhookResponse where
  | ok (ack_id : Nat)
  | unauthorized
  | badRequest
  | unprocessable
deriving DecidableEq, Repr

/-- Modelled from the spec: the normalized record of one inbound transcript
webhook call (§3). -/
structure InterviewSubmission where
  call_id : String
  transcript : String
  contact : String
deriving DecidableEq

/-- Modelled from the spec: a JSON value appearing in the model's structured
response (a number or a string). -/
inductive JsonValue where
  | num (q : ℚ)
  | str (s : String)
deriving DecidableEq

/-- Modelled from the spec: sentiment enumeration `Positive | Neutral |
Negative` (§3). -/
inductive Sentiment where
  | Positive
  | Neutral
  | Negative
deriving DecidableEq, Repr

/-- Modelled from the spec: retention-risk enumeration `Low | Medium | High`
(§3). -/
inductive RetentionRisk where
  | Low
  | Medium
  | High
deriving DecidableEq, Repr

/-- Modelled from the spec: the four-field derived record produced by a
successful model call (§3). -/
structure AnalysisResult where
  satisfaction_score : ℚ
  sentiment : Sentiment
  retention_risk : RetentionRisk
  summary : String
deriving DecidableEq

/-- Modelled from the spec: a reply of the external completion service — the
call itself may fail (network/timeout, `ModelCallFailed`), the reply may not be
the expected small JSON object (`ModelResponseUnparseable`), or it is a JSON
object given as a field list (§4.2, §7). -/
inductive ModelReply where
  | callFailed
  | notJson (raw : String)
  | json (fields : List (String × JsonValue))

/-- Modelled from the spec: the two prompts the adapter can issue — the fixed
instruction prompt embedding the (truncated) transcript, and the corrective
re-prompt used for the single retry (§4.2). -/
inductive Prompt where
  | initial (transcript : String)
  | corrective (transcript : String)
deriving DecidableEq, Repr

/-- The string rendering of a sentiment value in the model's JSON response. -/
def Sentiment.render : Sentiment → String
  | .Positive => "Positive"
  | .Neutral => "Neutral"
  | .Negative => "Negative"

/-- The string rendering of a retention-risk value in the model's JSON
response. -/
def RetentionRisk.render : RetentionRisk → String
  | .Low => "Low"
  | .Medium => "Medium"
  | .High => "High"

/-- First value bound to a key in the model's JSON object, if any. -/
def lookupField (fields : List (String × JsonValue)) (k : String) : Option JsonValue :=
  (fields.find? (fun f => f.1 == k)).map (·.2)

/-- Modelled from the spec: numeric policy for the satisfaction score — a
numeric value inside `[1, 5]` is accepted as-is; any out-of-range or
non-numeric value is treated as a parse failure, never clamped-and-accepted
(§4.2, §7). -/
def parseScore : JsonValue → Option ℚ
  | .num q => if 1 ≤ q ∧ q ≤ 5 then some q else none
  | .str _ => none

/-- A score field value the numeric policy rejects (§4.2, §7): non-numeric,
or numeric outside the range `[1, 5]`. -/
def rejectedScoreValue : JsonValue → Prop
  | .num q => q < 1 ∨ 5 < q
  | .str _ => True

/-- Modelled from the spec: strict deserialisation of the sentiment field. -/
def parseSentiment : JsonValue → Option Sentiment
  | .str "Positive" => some .Positive
  | .str "Neutral" => some .Neutral
  | .str "Negative" => some .Negative
  | _ => none

/-- Modelled from the spec: strict deserialisation of the retention-risk
field. -/
def parseRisk : JsonValue → Option RetentionRisk
  | .str "Low" => some .Low
  | .str "Medium" => some .Medium
  | .str "High" => some .High
  | _ => none

/-- Modelled from the spec: strict deserialisation of the summary field. -/
def parseSummary : JsonValue → Option String
  | .str s => some s
  | .num _ => none

/-- Modelled from the spec: strict schema-validated deserialisation of the
model's reply into the four required fields, with explicit failure (§4.2, §9):
a failed call or a non-JSON reply parses to nothing, and each field must be
present and valid. -/
def parseAnalysis : ModelReply → Option AnalysisResult
  | .callFailed => none
  | .notJson _ => none
  | .json fields =>
    (lookupField fields "satisfaction_score").bind fun sv =>
    (parseScore sv).bind fun score =>
    (lookupField fields "sentiment").bind fun stv =>
    (parseSentiment stv).bind fun sent =>
    (lookupField fields "retention_risk").bind fun rv =>
    (parseRisk rv).bind fun risk =>
    (lookupField fields "summary").bind fun suv =>
    (parseSummary suv).map fun summary =>
    ⟨score, sent, risk, summary⟩

/-- Modelled from the spec: transcript truncation at a configured character
limit (§4.2). -/
def truncateTranscript (limit : Nat) (t : String) : String :=
  String.mk (t.data.take limit)

/-- One attempt of the adapter: issue the prompt and strictly parse the
reply. -/
def attemptScore (model : Prompt → ModelReply) (p : Prompt) : Option AnalysisResult :=
  parseAnalysis (model p)

/-- Modelled from the spec: the two-outcome terminal scoring process
`submitted → scored | scoring-failed` (§4.2). -/
inductive ScoringOutcome where
  | scored (a : AnalysisResult)
  | scoringFailed
deriving DecidableEq

/-- Modelled from the spec: the scoring adapter (§4.2) — truncate the
transcript, issue the initial prompt, on parse failure retry exactly once with
the corrective re-prompt, and on a second failure return a scoring failure
rather than guessing values.  The second component records the prompts issued,
in order. -/
def scoreSubmission (model : Prompt → ModelReply) (cfg : WebhookConfig)
    (sub : InterviewSubmission) : ScoringOutcome × List Prompt :=
  let t := truncateTranscript cfg.truncLimit sub.transcript
  match attemptScore model (.initial t) with
  | some a => (.scored a, [.initial t])
  | none =>
    match attemptScore model (.corrective t) with
    | some a => (.scored a, [.initial t, .corrective t])
    | none => (.scoringFailed, [.initial t, .corrective t])

/-- Modelled from the spec: terminal status of a stored submission (§4.2). -/
inductive SubmissionStatus where
  | pending
  | scored
  | scoringFailed
deriving DecidableEq, Repr

/-- A persisted submission row: id, normalized record, whether it passed
signature verification, and its scoring status. -/
structure StoredSubmission where
  id : Nat
  submission : InterviewSubmission
  sigVerified : Bool
  status : SubmissionStatus

/-- A persisted analysis row: the derived record together with its one-to-one
link to the originating submission (§3). -/
structure StoredResult where
  submissionId : Nat
  result : AnalysisResult

/-- Modelled from the spec: the relational store with two related tables —
submissions and results (§6). -/
structure Store where
  nextId : Nat
  submissions : List StoredSubmission
  results : List StoredResult

/-- The empty store. -/
def Store.init : Store := ⟨0, [], []⟩

/-- Modelled from the spec: signature validation (§4.1) — recompute an HMAC
over the raw request body with the shared secret and compare with the supplied
header; absence of the header is a failure.  The HMAC function itself is a
parameter (its code is not in the provided sources). -/
def verifySignature (hmac : String → String → String) (cfg : WebhookConfig)
    (req : WebhookRequest) : Bool :=
  match req.signatureHeader with
  | none => false
  | some sig => sig == hmac cfg.secret req.rawBody

/-- Modelled from the spec: normalization of a well-formed payload into an
`InterviewSubmission`, with the transcript capped at the configured truncation
limit (§4.2, §8). -/
def normalizeSubmission (cfg : WebhookConfig) (p : WebhookPayload) :
    InterviewSubmission :=
  { call_id := p.call_id
    transcript := truncateTranscript cfg.truncLimit p.transcript
    contact := p.contact }

/-- Modelled from the spec: the full webhook handling pipeline (§4.1, §4.2) —
verify the signature (reject 401 on failure, regardless of the policy flag),
deserialise the body (400 malformed / 422 missing field), then normalize,
store, score inline and persist: on scoring success append the one linked
`AnalysisResult`; on failure persist no result and mark the submission
scoring-failed.  The acknowledgment id is the new submission id and is
returned regardless of the scoring outcome. -/
def handleWebhook (hmac : String → String → String)
    (parseBody : String → BodyParseResult) (model : Prompt → ModelReply)
    (cfg : WebhookConfig) (req : WebhookRequest) (s : Store) :
    WebhookResponse × Store :=
  if verifySignature hmac cfg req then
    match parseBody req.rawBody with
    | .malformed => (.badRequest, s)
    | .missingField => (.unprocessable, s)
    | .ok p =>
      let sub := normalizeSubmission cfg p
      let i := s.nextId
      match (scoreSubmission model cfg sub).1 with
      | .scored a =>
        (.ok i,
          { nextId := i + 1
            submissions := s.submissions ++ [⟨i, sub, true, .scored⟩]
            results := s.results ++ [⟨i, a⟩] })
      | .scoringFailed =>
        (.ok i,
          { nextId := i + 1
            submissions := s.submissions ++ [⟨i, sub, true, .scoringFailed⟩]
            results := s.results })
  else (.unauthorized, s)

/-- Modelled from the spec: the failure class of a request (§4.1 error
conditions), with signature verification ahead of body deserialisation. -/
inductive FailureClass where
  | sigFailure
  | malformedJson
  | missingField
  | valid
deriving DecidableEq, Repr

/-- The failure class of a request under a given HMAC and body deserialiser. -/
def classify (hmac : String → String → String)
    (parseBody : String → BodyParseResult) (cfg : WebhookConfig)
    (req : WebhookRequest) : FailureClass :=
  if verifySignature hmac cfg req then
    match parseBody req.rawBody with
    | .malformed => .malformedJson
    | .missingField => .missingField
    | .ok _ => .valid
  else .sigFailure

/-- The HTTP response dictated by a failure class (§4.1): signature failure →
401, malformed JSON → 400, missing field → 422, valid → 200 with the ack id. -/
def classResponse (s : Store) : FailureClass → WebhookResponse
  | .sigFailure => .unauthorized
  | .malformedJson => .badRequest
  | .missingField => .unprocessable
  | .valid => .ok s.nextId

/-- Submissions of the store carrying a given id. -/
def subsWithId (s : Store) (i : Nat) : List StoredSubmission :=
  s.submissions.filter (fun st => st.id == i)

/-- The data-model invariant (§3): every persisted result links to exactly one
stored submission, which passed signature verification; ids are below the
allocator; and a submission with no result is pending or permanently failed. -/
def storeInvariant (s : Store) : Prop :=
  (∀ st ∈ s.submissions, st.id < s.nextId) ∧
  (∀ r ∈ s.results, ∃ st, subsWithId s r.submissionId = [st] ∧ st.sigVerified = true) ∧
  (∀ st ∈ s.submissions, (∀ r ∈ s.results, r.submissionId ≠ st.id) →
    st.status = .pending ∨ st.status = .scoringFailed)

/-- States reachable from the empty store by webhook deliveries, with
arbitrary HMAC, body deserialiser, model behaviour, configuration and request
at every step. -/
inductive Reachable : Store → Prop where
  | init : Reachable Store.init
  | step (hmac : String → String → String)
      (parseBody : String → BodyParseResult) (model : Prompt → ModelReply)
      (cfg : WebhookConfig) (req : WebhookRequest) {s : Store}
      (h : Reachable s) :
      Reachable (handleWebhook hmac parseBody model cfg req s).2

/-- A concrete stand-in HMAC function used to instantiate the universally
quantified theorems below. -/
def sampleHmac (secret body : String) : String := secret ++ "." ++ body

/-- A concrete stand-in body deserialiser used to instantiate the universally
quantified theorems below: an empty body is malformed, a one-character body
misses a required field, anything else is the transcript of a well-formed
payload. -/
def sampleParseBody (b : String) : BodyParseResult :=
  if b = "" then .malformed
  else if b.length = 1 then .missingField
  else .ok { call_id := "call-1", transcript := b, contact := "emp-1" }

/-- A concrete model whose replies never parse (plain text), used to
instantiate retry/failure theorems. -/
def failingModel (_p : Prompt) : ModelReply := .notJson "I am not JSON"

/-- A concrete model returning a well-formed four-field JSON reply. -/
def okModel (_p : Prompt) : ModelReply :=
  .json [("satisfaction_score", .num (21 / 5)), ("sentiment", .str "Positive"),
         ("retention_risk", .str "Low"), ("summary", .str "all good")]

/-- A concrete configuration used to instantiate the universally quantified
theorems below. -/
def sampleConfig : WebhookConfig :=
  { secret := "sec", signatureMandatory := true, truncLimit := 4 }

/-- A concrete request with a valid signature under `sampleHmac` and
`sampleConfig`. -/
def sampleGoodRequest : WebhookRequest :=
  { rawBody := "hello transcript", signatureHeader := some "sec.hello transcript" }

/-- A concrete request whose signature does not match. -/
def sampleBadSigRequest : WebhookRequest :=
  { rawBody := "hello transcript", signatureHeader := some "bogus" }

/-- A concrete payload matching `sampleParseBody sampleGoodRequest.rawBody`. -/
def samplePayload : WebhookPayload :=
  { call_id := "call-1", transcript := "hello transcript", contact := "emp-1" }

/-- A concrete model reply whose satisfaction score is out of range (7.0). -/
def fieldsScoreSeven : List (String × JsonValue) :=
  [("satisfaction_score", .num 7), ("sentiment", .str "Positive"),
   ("retention_risk", .str "Low"), ("summary", .str "too happy")]

/-- A concrete model reply whose satisfaction score is non-numeric. -/
def fieldsScoreText : List (String × JsonValue) :=
  [("satisfaction_score", .str "great"), ("sentiment", .str "Positive"),
   ("retention_risk", .str "Low"), ("summary", .str "text score")]

/-!  ## Theorems settling the claims -/

/-- C9: after `logout`, the authentication state is fully cleared regardless of
the prior state: `user`, `organization` and `token` are all null, the three
cookies are removed, the axios `Authorization` default header is deleted, and
`isAuthenticated` returns `false`. -/
theorem logout_clears_all (s : AuthState) :
    (logout s).user = none ∧
    (logout s).organization = none ∧
    (logout s).token = none ∧
    (logout s).cookies.apriori_token = none ∧
    (logout s).cookies.apriori_user = none ∧
    (logout s).cookies.apriori_org = none ∧
    (logout s).axiosAuthHeader = none ∧
    isAuthenticated (logout s) = false := by
  simp [logout, isAuthenticated, jsTruthyStr]

/-- Closed instance of `logout_clears_all` at a concrete authenticated state. -/
theorem logout_clears_all_witness :
    (logout sampleAuthState).user = none ∧
    (logout sampleAuthState).organization = none ∧
    (logout sampleAuthState).token = none ∧
    (logout sampleAuthState).cookies.apriori_token = none ∧
    (logout sampleAuthState).cookies.apriori_user = none ∧
    (logout sampleAuthState).cookies.apriori_org = none ∧
    (logout sampleAuthState).axiosAuthHeader = none ∧
    isAuthenticated (logout sampleAuthState) = false :=
  logout_clears_all sampleAuthState

/-- C10: `hasRole` returns `false` when `user` is null; when the argument is an
array it returns `true` exactly when the array contains `user.role`; otherwise
it returns `true` exactly when `user.role` strictly equals the argument. -/
theorem hasRole_spec (user : Option UserData) (roles : RolesArg) :
    (user = none → hasRole user roles = false) ∧
    (∀ u rs, user = some u → roles = .many rs →
      (hasRole user roles = true ↔ u.role ∈ rs)) ∧
    (∀ u r, user = some u → roles = .one r →
      (hasRole user roles = true ↔ u.role = r)) := by
  refine ⟨?_, ?_, ?_⟩
  · rintro rfl; rfl
  · rintro u rs rfl rfl
    simp [hasRole]
  · rintro u r rfl rfl
    simp [hasRole]

/-- Closed instance of `hasRole_spec` at a concrete user and role array. -/
theorem hasRole_spec_witness :
    (some sampleUser = (none : Option UserData) →
      hasRole (some sampleUser) (.many ["admin", "hr"]) = false) ∧
    (∀ u rs, some sampleUser = some u →
      RolesArg.many ["admin", "hr"] = .many rs →
      (hasRole (some sampleUser) (.many ["admin", "hr"]) = true ↔ u.role ∈ rs)) ∧
    (∀ u r, some sampleUser = some u →
      RolesArg.many ["admin", "hr"] = .one r →
      (hasRole (some sampleUser) (.many ["admin", "hr"]) = true ↔ u.role = r)) :=
  hasRole_spec (some sampleUser) (.many ["admin", "hr"])


/-- C1: a webhook request whose signature header is missing or does not match
the HMAC recomputed over the raw body with the shared secret is answered with
401 and creates no `InterviewSubmission` — the store is unchanged — and this
holds for both values of the mandatory/optional policy flag. -/
theorem invalid_signature_rejected
    (hmac : String → String → String) (parseBody : String → BodyParseResult)
    (model : Prompt → ModelReply) (secret : String) (mandatory : Bool)
    (limit : Nat) (req : WebhookRequest) (s : Store)
    (h : req.signatureHeader = none ∨
      ∀ sig, req.signatureHeader = some sig → sig ≠ hmac secret req.rawBody) :
    handleWebhook hmac parseBody model ⟨secret, mandatory, limit⟩ req s =
      (.unauthorized, s) := by
  have hv : verifySignature hmac ⟨secret, mandatory, limit⟩ req = false := by
    cases hh : req.signatureHeader with
    | none => simp [verifySignature, hh]
    | some sig =>
      rcases h with h | h
      · rw [hh] at h; cases h
      · have hne := h sig hh
        simp [verifySignature, hh, hne]
  simp [handleWebhook, hv]

/-- Closed instance of `invalid_signature_rejected`: a concrete mismatched
signature is answered with 401 on the empty store. -/
theorem invalid_signature_rejected_witness :
    handleWebhook sampleHmac sampleParseBody failingModel
      ⟨"sec", true, 4⟩ sampleBadSigRequest Store.init =
      (.unauthorized, Store.init) :=
  invalid_signature_rejected sampleHmac sampleParseBody failingModel
    "sec" true 4 sampleBadSigRequest Store.init
    (Or.inr (by
      intro sig hs
      injection hs with hh
      subst hh
      decide))

/-- C4: for a valid payload (signature accepted, body well formed) the
endpoint returns 200 with the acknowledgment id whatever the scoring model
does — in particular for models whose scoring fails — and the response is
identical under any two model behaviours: acknowledgment and scoring outcome
are decoupled and a scoring failure is never surfaced to the caller. -/
theorem valid_payload_acked
    (hmac : String → String → String) (parseBody : String → BodyParseResult)
    (cfg : WebhookConfig) (req : WebhookRequest) (s : Store) (p : WebhookPayload)
    (hsig : verifySignature hmac cfg req = true)
    (hparse : parseBody req.rawBody = .ok p) :
    (∀ model, (handleWebhook hmac parseBody model cfg req s).1 = .ok s.nextId) ∧
    (∀ model modelB,
      (handleWebhook hmac parseBody model cfg req s).1 =
      (handleWebhook hmac parseBody modelB cfg req s).1) := by
  have key : ∀ model : Prompt → ModelReply,
      (handleWebhook hmac parseBody model cfg req s).1 = .ok s.nextId := by
    intro model
    simp only [handleWebhook, hsig, if_true, hparse]
    cases hsc : (scoreSubmission model cfg (normalizeSubmission cfg p)).1 <;> simp [hsc]
  exact ⟨key, fun m mB => (key m).trans (key mB).symm⟩

/-- Closed instance of `valid_payload_acked`: a concrete valid request is
acknowledged with the ack id even under an always-failing model, and the
response equals the one under a succeeding model. -/
theorem valid_payload_acked_witness :
    (handleWebhook sampleHmac sampleParseBody failingModel sampleConfig
       sampleGoodRequest Store.init).1 = .ok Store.init.nextId ∧
    (handleWebhook sampleHmac sampleParseBody failingModel sampleConfig
       sampleGoodRequest Store.init).1 =
    (handleWebhook sampleHmac sampleParseBody okModel sampleConfig
       sampleGoodRequest Store.init).1 :=
  ⟨(valid_payload_acked sampleHmac sampleParseBody sampleConfig sampleGoodRequest
      Store.init { call_id := "call-1", transcript := "hello transcript", contact := "emp-1" }
      (by decide) (by decide)).1 failingModel,
   (valid_payload_acked sampleHmac sampleParseBody sampleConfig sampleGoodRequest
      Store.init { call_id := "call-1", transcript := "hello transcript", contact := "emp-1" }
      (by decide) (by decide)).2 failingModel okModel⟩

/-- Transcript truncation at the configured limit is idempotent. -/
theorem truncateTranscript_idem (limit : Nat) (t : String) :
    truncateTranscript limit (truncateTranscript limit t) =
      truncateTranscript limit t := by
  simp [truncateTranscript, List.take_take]

/-- C2: when the model's first reply fails to parse, the adapter issues
exactly one retry, with the corrective re-prompt; when the retry also fails to
parse, the outcome is a scoring failure (never a default score), the pipeline
persists no `AnalysisResult`, and the stored submission is marked
scoring-failed. -/
theorem scoring_failure_retry_once
    (hmac : String → String → String) (parseBody : String → BodyParseResult)
    (model : Prompt → ModelReply) (cfg : WebhookConfig) (req : WebhookRequest)
    (s : Store) (p : WebhookPayload)
    (hsig : verifySignature hmac cfg req = true)
    (hparse : parseBody req.rawBody = .ok p)
    (h1 : attemptScore model
      (.initial (truncateTranscript cfg.truncLimit p.transcript)) = none) :
    (scoreSubmission model cfg (normalizeSubmission cfg p)).2 =
      [.initial (truncateTranscript cfg.truncLimit p.transcript),
       .corrective (truncateTranscript cfg.truncLimit p.transcript)] ∧
    (attemptScore model
        (.corrective (truncateTranscript cfg.truncLimit p.transcript)) = none →
      scoreSubmission model cfg (normalizeSubmission cfg p) =
        (.scoringFailed,
         [.initial (truncateTranscript cfg.truncLimit p.transcript),
          .corrective (truncateTranscript cfg.truncLimit p.transcript)]) ∧
      (handleWebhook hmac parseBody model cfg req s).2.results = s.results ∧
      (handleWebhook hmac parseBody model cfg req s).2.submissions =
        s.submissions ++
          [⟨s.nextId, normalizeSubmission cfg p, true, .scoringFailed⟩]) := by
  have hidem := truncateTranscript_idem cfg.truncLimit p.transcript
  constructor
  · cases h2c : attemptScore model
        (.corrective (truncateTranscript cfg.truncLimit p.transcript)) <;>
      simp only [scoreSubmission, normalizeSubmission, hidem, h1, h2c]
  · intro h2
    have hscore : scoreSubmission model cfg (normalizeSubmission cfg p) =
        (.scoringFailed,
         [.initial (truncateTranscript cfg.truncLimit p.transcript),
          .corrective (truncateTranscript cfg.truncLimit p.transcript)]) := by
      simp only [scoreSubmission, normalizeSubmission, hidem, h1, h2]
    refine ⟨hscore, ?_, ?_⟩ <;>
      simp [handleWebhook, hsig, hparse, hscore]

/-- Closed instance of `scoring_failure_retry_once` under a model whose
replies are never valid JSON. -/
theorem scoring_failure_retry_once_witness :
    (scoreSubmission failingModel sampleConfig
        (normalizeSubmission sampleConfig samplePayload)).2 =
      [.initial (truncateTranscript sampleConfig.truncLimit samplePayload.transcript),
       .corrective (truncateTranscript sampleConfig.truncLimit samplePayload.transcript)] ∧
    (attemptScore failingModel
        (.corrective (truncateTranscript sampleConfig.truncLimit
          samplePayload.transcript)) = none →
      scoreSubmission failingModel sampleConfig
          (normalizeSubmission sampleConfig samplePayload) =
        (.scoringFailed,
         [.initial (truncateTranscript sampleConfig.truncLimit samplePayload.transcript),
          .corrective (truncateTranscript sampleConfig.truncLimit samplePayload.transcript)]) ∧
      (handleWebhook sampleHmac sampleParseBody failingModel sampleConfig
          sampleGoodRequest Store.init).2.results = Store.init.results ∧
      (handleWebhook sampleHmac sampleParseBody failingModel sampleConfig
          sampleGoodRequest Store.init).2.submissions =
        Store.init.submissions ++
          [⟨Store.init.nextId, normalizeSubmission sampleConfig samplePayload,
            true, .scoringFailed⟩]) :=
  scoring_failure_retry_once sampleHmac sampleParseBody failingModel sampleConfig
    sampleGoodRequest Store.init samplePayload (by decide) (by decide) rfl

/-- C3: a model reply whose `satisfaction_score` field is non-numeric or out
of the range `[1, 5]` is rejected by the strict parse (no `AnalysisResult` is
produced — the value is neither stored as-is nor clamped), and any reply that
is accepted carries a score that equals the raw numeric field value exactly
and lies within the range. -/
theorem score_out_of_range_rejected
    (fields : List (String × JsonValue)) (v : JsonValue)
    (hfield : lookupField fields "satisfaction_score" = some v) :
    (rejectedScoreValue v → parseAnalysis (.json fields) = none) ∧
    (∀ a, parseAnalysis (.json fields) = some a →
      v = .num a.satisfaction_score ∧
      1 ≤ a.satisfaction_score ∧ a.satisfaction_score ≤ 5) := by
  constructor
  · intro h
    cases v with
    | num q =>
      have hc : ¬ (1 ≤ q ∧ q ≤ 5) := by
        rintro ⟨hl, hr⟩
        rcases h with h | h
        · exact absurd hl (not_le.mpr h)
        · exact absurd hr (not_le.mpr h)
      simp [parseAnalysis, hfield, parseScore, hc]
    | str t => simp [parseAnalysis, hfield, parseScore]
  · intro a ha
    cases v with
    | num q =>
      by_cases hc : 1 ≤ q ∧ q ≤ 5
      · have hps : parseScore (.num q) = some q := by simp [parseScore, hc]
        simp only [parseAnalysis, hfield, hps, Option.some_bind,
          Option.bind_eq_some, Option.map_eq_some'] at ha
        obtain ⟨stv, -, sent, -, rv, -, risk, -, suv, -, summary, -, heq⟩ := ha
        have hsc : a.satisfaction_score = q := by rw [← heq]
        exact ⟨by rw [hsc], by rw [hsc]; exact hc.1, by rw [hsc]; exact hc.2⟩
      · simp [parseAnalysis, hfield, parseScore, hc] at ha
    | str t => simp [parseAnalysis, hfield, parseScore] at ha

/-- Closed instance of `score_out_of_range_rejected` at a reply carrying
`satisfaction_score = 7.0` and at a reply whose score is the non-numeric
string `"great"`. -/
theorem score_out_of_range_rejected_witness :
    ((rejectedScoreValue (.num 7) →
        parseAnalysis (.json fieldsScoreSeven) = none) ∧
     (∀ a, parseAnalysis (.json fieldsScoreSeven) = some a →
        JsonValue.num 7 = .num a.satisfaction_score ∧
        1 ≤ a.satisfaction_score ∧ a.satisfaction_score ≤ 5)) ∧
    ((rejectedScoreValue (.str "great") →
        parseAnalysis (.json fieldsScoreText) = none) ∧
     (∀ a, parseAnalysis (.json fieldsScoreText) = some a →
        JsonValue.str "great" = .num a.satisfaction_score ∧
        1 ≤ a.satisfaction_score ∧ a.satisfaction_score ≤ 5)) :=
  ⟨score_out_of_range_rejected fieldsScoreSeven (.num 7) rfl,
   score_out_of_range_rejected fieldsScoreText (.str "great") rfl⟩

/-- C5: a well-formed model reply holding exactly the four expected fields
with an in-range score parses to an `AnalysisResult` whose four field values
equal those of the reply exactly. -/
theorem wellformed_response_roundtrip (q : ℚ) (sent : Sentiment)
    (risk : RetentionRisk) (summary : String) (h1 : 1 ≤ q) (h5 : q ≤ 5) :
    parseAnalysis (.json [("satisfaction_score", .num q),
                          ("sentiment", .str sent.render),
                          ("retention_risk", .str risk.render),
                          ("summary", .str summary)]) =
      some ⟨q, sent, risk, summary⟩ := by
  cases sent <;> cases risk <;>
    simp [parseAnalysis, lookupField, List.find?, parseScore, parseSentiment,
      parseRisk, parseSummary, Sentiment.render, RetentionRisk.render, h1, h5]

/-- Closed instance of `wellformed_response_roundtrip` at the reply
`{"satisfaction_score": 4.2, "sentiment": "Positive",
"retention_risk": "Low", "summary": "all good"}`. -/
theorem wellformed_response_roundtrip_witness :
    parseAnalysis (.json [("satisfaction_score", .num (21 / 5)),
                          ("sentiment", .str Sentiment.Positive.render),
                          ("retention_risk", .str RetentionRisk.Low.render),
                          ("summary", .str "all good")]) =
      some ⟨21 / 5, .Positive, .Low, "all good"⟩ :=
  wellformed_response_roundtrip (21 / 5) .Positive .Low "all good"
    (by norm_num) (by norm_num)

/-- C6: a valid payload whose transcript exceeds the configured truncation
limit is not rejected — the endpoint still answers 200 with the ack id — and
the stored submission carries the transcript truncated at the limit, so its
recorded length is exactly the limit. -/
theorem long_transcript_truncated
    (hmac : String → String → String) (parseBody : String → BodyParseResult)
    (model : Prompt → ModelReply) (cfg : WebhookConfig) (req : WebhookRequest)
    (s : Store) (p : WebhookPayload)
    (hsig : verifySignature hmac cfg req = true)
    (hparse : parseBody req.rawBody = .ok p)
    (hlong : cfg.truncLimit < p.transcript.length) :
    ∃ st : StoredSubmission,
      (handleWebhook hmac parseBody model cfg req s).2.submissions =
        s.submissions ++ [st] ∧
      st.submission.transcript = truncateTranscript cfg.truncLimit p.transcript ∧
      st.submission.transcript.length = cfg.truncLimit ∧
      (handleWebhook hmac parseBody model cfg req s).1 = .ok s.nextId := by
  have hlen0 : (truncateTranscript cfg.truncLimit p.transcript).length =
      min cfg.truncLimit p.transcript.length := List.length_take _ _
  have hlen : (truncateTranscript cfg.truncLimit p.transcript).length =
      cfg.truncLimit := hlen0.trans (Nat.min_eq_left hlong.le)
  cases hsc : (scoreSubmission model cfg (normalizeSubmission cfg p)).1 with
  | scored a =>
    exact ⟨⟨s.nextId, normalizeSubmission cfg p, true, .scored⟩,
      by simp [handleWebhook, hsig, hparse, hsc], rfl, hlen,
      by simp [handleWebhook, hsig, hparse, hsc]⟩
  | scoringFailed =>
    exact ⟨⟨s.nextId, normalizeSubmission cfg p, true, .scoringFailed⟩,
      by simp [handleWebhook, hsig, hparse, hsc], rfl, hlen,
      by simp [handleWebhook, hsig, hparse, hsc]⟩

/-- Closed instance of `long_transcript_truncated`: the sample transcript of
16 characters against a limit of 4. -/
theorem long_transcript_truncated_witness :
    ∃ st : StoredSubmission,
      (handleWebhook sampleHmac sampleParseBody failingModel sampleConfig
          sampleGoodRequest Store.init).2.submissions =
        Store.init.submissions ++ [st] ∧
      st.submission.transcript =
        truncateTranscript sampleConfig.truncLimit samplePayload.transcript ∧
      st.submission.transcript.length = sampleConfig.truncLimit ∧
      (handleWebhook sampleHmac sampleParseBody failingModel sampleConfig
          sampleGoodRequest Store.init).1 = .ok Store.init.nextId :=
  long_transcript_truncated sampleHmac sampleParseBody failingModel sampleConfig
    sampleGoodRequest Store.init samplePayload (by decide) (by decide) (by decide)

/-- C7: the HTTP status of the endpoint is a total function of the failure
class of the request — signature failure → 401, malformed JSON → 400, missing
required field → 422, valid → 200 with the ack id — and a downstream scoring
failure still yields the 200 acknowledgment, with the failure recorded
internally as the scoring-failed state of the stored submission. -/
theorem response_total_by_class
    (hmac : String → String → String) (parseBody : String → BodyParseResult)
    (model : Prompt → ModelReply) (cfg : WebhookConfig) (req : WebhookRequest)
    (s : Store) :
    (handleWebhook hmac parseBody model cfg req s).1 =
      classResponse s (classify hmac parseBody cfg req) ∧
    (∀ p, parseBody req.rawBody = .ok p →
      verifySignature hmac cfg req = true →
      (scoreSubmission model cfg (normalizeSubmission cfg p)).1 = .scoringFailed →
      (handleWebhook hmac parseBody model cfg req s).1 = .ok s.nextId ∧
      (handleWebhook hmac parseBody model cfg req s).2.submissions =
        s.submissions ++
          [⟨s.nextId, normalizeSubmission cfg p, true, .scoringFailed⟩]) := by
  constructor
  · by_cases hv : verifySignature hmac cfg req
    · cases hb : parseBody req.rawBody with
      | malformed => simp [handleWebhook, classify, classResponse, hv, hb]
      | missingField => simp [handleWebhook, classify, classResponse, hv, hb]
      | ok p =>
        cases hsc : (scoreSubmission model cfg (normalizeSubmission cfg p)).1 <;>
          simp [handleWebhook, classify, classResponse, hv, hb, hsc]
    · simp [handleWebhook, classify, classResponse, hv]
  · intro p hb hv hsc
    constructor <;> simp [handleWebhook, hv, hb, hsc]

/-- Closed instance of `response_total_by_class` at a concrete valid request
on the empty store. -/
theorem response_total_by_class_witness :
    (handleWebhook sampleHmac sampleParseBody failingModel sampleConfig
        sampleGoodRequest Store.init).1 =
      classResponse Store.init
        (classify sampleHmac sampleParseBody sampleConfig sampleGoodRequest) ∧
    (∀ p, sampleParseBody sampleGoodRequest.rawBody = .ok p →
      verifySignature sampleHmac sampleConfig sampleGoodRequest = true →
      (scoreSubmission failingModel sampleConfig
        (normalizeSubmission sampleConfig p)).1 = .scoringFailed →
      (handleWebhook sampleHmac sampleParseBody failingModel sampleConfig
          sampleGoodRequest Store.init).1 = .ok Store.init.nextId ∧
      (handleWebhook sampleHmac sampleParseBody failingModel sampleConfig
          sampleGoodRequest Store.init).2.submissions =
        Store.init.submissions ++
          [⟨Store.init.nextId, normalizeSubmission sampleConfig p,
            true, .scoringFailed⟩]) :=
  response_total_by_class sampleHmac sampleParseBody failingModel sampleConfig
    sampleGoodRequest Store.init

/-- The empty store satisfies the data-model invariant. -/
theorem storeInvariant_init : storeInvariant Store.init := by
  refine ⟨?_, ?_, ?_⟩ <;> intro x hx <;> simp [Store.init] at hx

/-- Submissions already stored never carry the freshly allocated id. -/
theorem filter_fresh_id_nil (s : Store)
    (hid : ∀ st ∈ s.submissions, st.id < s.nextId) :
    s.submissions.filter (fun x => x.id == s.nextId) = [] := by
  refine List.filter_eq_nil_iff.mpr ?_
  intro st h
  simp only [Bool.not_eq_true, beq_eq_false_iff_ne]
  exact Nat.ne_of_lt (hid st h)

/-- A result already stored never links to the freshly allocated id. -/
theorem stored_result_id_ne_fresh (s : Store) (r : StoredResult)
    (hid : ∀ st ∈ s.submissions, st.id < s.nextId)
    (hres : ∀ r ∈ s.results, ∃ st,
      subsWithId s r.submissionId = [st] ∧ st.sigVerified = true)
    (hr : r ∈ s.results) : r.submissionId ≠ s.nextId := by
  obtain ⟨st, hfil, -⟩ := hres r hr
  have hmem : st ∈ s.submissions.filter (fun x => x.id == r.submissionId) := by
    rw [show s.submissions.filter (fun x => x.id == r.submissionId) = [st] from hfil]
    exact List.mem_singleton.mpr rfl
  have hmem' := List.mem_filter.mp hmem
  have hxid : st.id = r.submissionId := by simpa using hmem'.2
  intro hcontra
  have := hid st hmem'.1
  rw [hxid, hcontra] at this
  exact lt_irrefl _ this

/-- Appending a fresh submission keeps the filtered singleton of every stored
result intact. -/
theorem subsWithId_extend (s : Store) (fresh : StoredSubmission)
    (hfreshid : fresh.id = s.nextId) (i : Nat) (hi : i ≠ s.nextId)
    (s2 : Store)
    (hsub : s2.submissions = s.submissions ++ [fresh]) :
    subsWithId s2 i = subsWithId s i := by
  unfold subsWithId
  rw [hsub, List.filter_append]
  have : [fresh].filter (fun x => x.id == i) = [] := by
    simp [hfreshid, beq_eq_false_iff_ne, Ne.symm hi, hi]
  rw [this, List.append_nil]

/-- Inserting a scored submission together with its one linked result
preserves the data-model invariant. -/
theorem storeInvariant_insert_scored (s : Store) (sub : InterviewSubmission)
    (a : AnalysisResult) (hinv : storeInvariant s) :
    storeInvariant
      { nextId := s.nextId + 1
        submissions := s.submissions ++ [⟨s.nextId, sub, true, .scored⟩]
        results := s.results ++ [⟨s.nextId, a⟩] } := by
  obtain ⟨hid, hres, hstat⟩ := hinv
  refine ⟨?_, ?_, ?_⟩
  · intro st h
    rcases List.mem_append.mp h with h | h
    · exact Nat.lt_succ_of_lt (hid st h)
    · rw [List.mem_singleton.mp h]
      exact Nat.lt_succ_self _
  · intro r hr
    rcases List.mem_append.mp hr with hr | hr
    · obtain ⟨st, hfil, hsv⟩ := hres r hr
      have hne : r.submissionId ≠ s.nextId :=
        stored_result_id_ne_fresh s r hid hres hr
      refine ⟨st, ?_, hsv⟩
      have hext := subsWithId_extend s ⟨s.nextId, sub, true, .scored⟩ rfl
        r.submissionId hne
        { nextId := s.nextId + 1
          submissions := s.submissions ++ [⟨s.nextId, sub, true, .scored⟩]
          results := s.results ++ [⟨s.nextId, a⟩] } rfl
      rw [hext, hfil]
    · rw [List.mem_singleton.mp hr]
      refine ⟨⟨s.nextId, sub, true, .scored⟩, ?_, rfl⟩
      unfold subsWithId
      simp only [List.filter_append, filter_fresh_id_nil s hid]
      simp
  · intro st h hnone
    rcases List.mem_append.mp h with h | h
    · refine hstat st h ?_
      intro r hr
      exact hnone r (List.mem_append.mpr (Or.inl hr))
    · exfalso
      rw [List.mem_singleton.mp h] at hnone
      exact hnone ⟨s.nextId, a⟩ (List.mem_append.mpr (Or.inr (List.mem_singleton.mpr rfl))) rfl

/-- Inserting a scoring-failed submission (with no result) preserves the
data-model invariant. -/
theorem storeInvariant_insert_failed (s : Store) (sub : InterviewSubmission)
    (hinv : storeInvariant s) :
    storeInvariant
      { nextId := s.nextId + 1
        submissions := s.submissions ++ [⟨s.nextId, sub, true, .scoringFailed⟩]
        results := s.results } := by
  obtain ⟨hid, hres, hstat⟩ := hinv
  refine ⟨?_, ?_, ?_⟩
  · intro st h
    rcases List.mem_append.mp h with h | h
    · exact Nat.lt_succ_of_lt (hid st h)
    · rw [List.mem_singleton.mp h]
      exact Nat.lt_succ_self _
  · intro r hr
    obtain ⟨st, hfil, hsv⟩ := hres r hr
    have hne : r.submissionId ≠ s.nextId :=
      stored_result_id_ne_fresh s r hid hres hr
    refine ⟨st, ?_, hsv⟩
    have hext := subsWithId_extend s ⟨s.nextId, sub, true, .scoringFailed⟩ rfl
      r.submissionId hne
      { nextId := s.nextId + 1
        submissions := s.submissions ++ [⟨s.nextId, sub, true, .scoringFailed⟩]
        results := s.results } rfl
    rw [hext, hfil]
  · intro st h hnone
    rcases List.mem_append.mp h with h | h
    · exact hstat st h hnone
    · rw [List.mem_singleton.mp h]
      exact Or.inr rfl

/-- One webhook delivery preserves the data-model invariant. -/
theorem storeInvariant_step (hmac : String → String → String)
    (parseBody : String → BodyParseResult) (model : Prompt → ModelReply)
    (cfg : WebhookConfig) (req : WebhookRequest) (s : Store)
    (hinv : storeInvariant s) :
    storeInvariant (handleWebhook hmac parseBody model cfg req s).2 := by
  by_cases hv : verifySignature hmac cfg req
  · cases hb : parseBody req.rawBody with
    | malformed => simpa [handleWebhook, hv, hb] using hinv
    | missingField => simpa [handleWebhook, hv, hb] using hinv
    | ok p =>
      cases hsc : (scoreSubmission model cfg (normalizeSubmission cfg p)).1 with
      | scored a =>
        have := storeInvariant_insert_scored s (normalizeSubmission cfg p) a hinv
        simpa [handleWebhook, hv, hb, hsc] using this
      | scoringFailed =>
        have := storeInvariant_insert_failed s (normalizeSubmission cfg p) hinv
        simpa [handleWebhook, hv, hb, hsc] using this
  · simpa [handleWebhook, hv] using hinv

/-- C8: in every reachable state, each persisted `AnalysisResult` links to
exactly one stored `InterviewSubmission`, which passed signature verification;
a submission with no result is pending or permanently scoring-failed; and a
step never mutates results already written — it can only append to the results
table. -/
theorem reachable_storeInvariant (s : Store) (hreach : Reachable s) :
    storeInvariant s ∧
    ∀ (hmac : String → String → String) (parseBody : String → BodyParseResult)
      (model : Prompt → ModelReply) (cfg : WebhookConfig) (req : WebhookRequest),
      ∃ tail, (handleWebhook hmac parseBody model cfg req s).2.results =
        s.results ++ tail := by
  constructor
  · induction hreach with
    | init => exact storeInvariant_init
    | step hmac parseBody model cfg req h ih =>
      exact storeInvariant_step hmac parseBody model cfg req _ ih
  · intro hmac parseBody model cfg req
    by_cases hv : verifySignature hmac cfg req
    · cases hb : parseBody req.rawBody with
      | malformed => exact ⟨[], by simp [handleWebhook, hv, hb]⟩
      | missingField => exact ⟨[], by simp [handleWebhook, hv, hb]⟩
      | ok p =>
        cases hsc : (scoreSubmission model cfg (normalizeSubmission cfg p)).1 with
        | scored a =>
          exact ⟨[⟨s.nextId, a⟩], by simp [handleWebhook, hv, hb, hsc]⟩
        | scoringFailed => exact ⟨[], by simp [handleWebhook, hv, hb, hsc]⟩
    · exact ⟨[], by simp [handleWebhook, hv]⟩

/-- Closed instance of `reachable_storeInvariant`: the store after one
successful delivery into the empty store is reachable and satisfies the
invariant. -/
theorem reachable_storeInvariant_witness :
    storeInvariant (handleWebhook sampleHmac sampleParseBody okModel
      sampleConfig sampleGoodRequest Store.init).2 ∧
    ∀ (hmac : String → String → String) (parseBody : String → BodyParseResult)
      (model : Prompt → ModelReply) (cfg : WebhookConfig) (req : WebhookRequest),
      ∃ tail, (handleWebhook hmac parseBody model cfg req
          (handleWebhook sampleHmac sampleParseBody okModel
            sampleConfig sampleGoodRequest Store.init).2).2.results =
        (handleWebhook sampleHmac sampleParseBody okModel
          sampleConfig sampleGoodRequest Store.init).2.results ++ tail :=
  reachable_storeInvariant _
    (Reachable.step sampleHmac sampleParseBody okModel sampleConfig
      sampleGoodRequest Reachable.init)

end Apriori
